import Mathlib

/-!
Verification of the `adhoc_runxp.py` wrapper from the selscan repository.

The script is embedded shallowly: the command string is built by the same
string concatenation as the source, the argument-count check, the usage
print, `sys.exit()` and the `subprocess.check_output(basecmd.split())`
call are modelled as a pure function from the argument vector and the
behaviour of the external binary to an observable outcome (printed lines,
the argv the child was spawned with, and the process exit code).
-/

namespace AdhocRunxp

/-- The module-level constant `basecmd = "/app/bin/linux/selscan"`. -/
def basecmd : String := "/app/bin/linux/selscan"

/-- The usage line printed when the argument count is wrong
(source line 11). -/
def usageMsg : String :=
  "call program as: python adhoc_runxp.py {in_tped1} {out1} {in_tped2} {out2}"

/-- The command string built on source line 14 by string concatenation,
including the trailing blank of the final literal. -/
def full_cmd (in_tped1 out_popihh1 in_tped2 out_popihh2 : String) : String :=
  basecmd ++ " --xpehh --tped " ++ in_tped1 ++ " --out " ++ out_popihh1 ++
    " --tped-ref " ++ in_tped2 ++ " --out2 " ++ out_popihh2 ++
    " --maf 0.05 --gap-scale 20000 --threads 15 "

/-- Helper for `words`: accumulates the current word in reverse. -/
def wordsAux : List Char → List Char → List (List Char)
  | [], acc => if acc.isEmpty then [] else [acc.reverse]
  | c :: rest, acc =>
    if c = ' ' then
      if acc.isEmpty then wordsAux rest [] else acc.reverse :: wordsAux rest []
    else wordsAux rest (c :: acc)

/-- Split a character list on blanks, discarding empty pieces: the
tokenisation Python's `str.split()` performs on blank-separated text
(source line 16 uses it on `basecmd`). -/
def words (l : List Char) : List (List Char) := wordsAux l []

/-- Python's `s.split()` on a string, as used on source line 16. -/
def pySplit (s : String) : List String := (words s.data).map String.mk

/-- The tuple unpacking `a, b, c, d = sys.argv[1:]` of source line 13:
succeeds exactly when the list has four elements, otherwise Python
raises `ValueError`. -/
def unpack4 (l : List String) : Option (String × String × String × String) :=
  match l with
  | [a, b, c, d] => some (a, b, c, d)
  | _ => none

/-- Observable behaviour of the external binary when the wrapper tries to
launch it: the launch itself can fail (binary missing or not executable,
Python raises `OSError`), or the child runs and exits with a status. -/
inductive ChildResult where
  | launchFailure : ChildResult
  | exited : Nat → ChildResult
deriving DecidableEq

/-- The observable outcome of one run of the script: the lines printed to
standard output, the argv of the spawned child process (if any), and the
exit code of the interpreter. -/
structure Outcome where
  printed : List String
  spawned : Option (List String)
  exitCode : Nat
deriving DecidableEq

/-- The `main()` function of `adhoc_runxp.py`, lines 9-16, as a function
of the argument vector `argv` (`sys.argv`, program name included) and of
the external binary's behaviour `child` (a map from the argv a child is
spawned with to its result).

* `len(sys.argv) != 5`: print the usage line and `sys.exit()`, which
  terminates the interpreter with exit code 0; no child is spawned.
* otherwise unpack `sys.argv[1:]`, build `full_cmd`, print it, and call
  `subprocess.check_output(basecmd.split())` - note the child argv is
  `basecmd.split()`, not the constructed command.  `check_output` raises
  `CalledProcessError` on a non-zero child status; that exception, like
  an `OSError` from a failed launch, is uncaught, so the interpreter
  exits with code 1.  A failed unpack would raise an uncaught
  `ValueError` (exit code 1) before anything is printed. -/
def pymain (argv : List String) (child : List String → ChildResult) : Outcome :=
  if argv.length ≠ 5 then
    { printed := [usageMsg], spawned := none, exitCode := 0 }
  else
    match unpack4 argv.tail with
    | some (in_tped1, out_popihh1, in_tped2, out_popihh2) =>
      let cmd := full_cmd in_tped1 out_popihh1 in_tped2 out_popihh2
      let spawnArgv := pySplit basecmd
      { printed := [cmd]
        spawned := some spawnArgv
        exitCode :=
          match child spawnArgv with
          | ChildResult.exited 0 => 0
          | ChildResult.exited (_ + 1) => 1
          | ChildResult.launchFailure => 1 }
    | none => { printed := [], spawned := none, exitCode := 1 }

/-- The command template of the spec, as an ordered token sequence with
the four file-path arguments substituted positionally. -/
def specTokens (a b c d : String) : List (List Char) :=
  [basecmd.data, "--xpehh".data, "--tped".data, a.data, "--out".data, b.data,
    "--tped-ref".data, c.data, "--out2".data, d.data, "--maf".data,
    "0.05".data, "--gap-scale".data, "20000".data, "--threads".data,
    "15".data]

/-- Each token followed by one blank, concatenated: the shape of the
constructed command's character list. -/
def joinSpaced (ts : List (List Char)) : List Char :=
  ts.foldr (fun w acc => w ++ ' ' :: acc) []

end AdhocRunxp

namespace AdhocRunxp

lemma wordsAux_cons_ne (c : Char) (hc : c ≠ ' ') (l acc : List Char) :
    wordsAux (c :: l) acc = wordsAux l (c :: acc) := by
  simp [wordsAux, hc]

lemma wordsAux_nospace (w : List Char) (hw : ∀ c ∈ w, c ≠ ' ') :
    ∀ (t acc : List Char), wordsAux (w ++ t) acc = wordsAux t (w.reverse ++ acc) := by
  induction w with
  | nil => intro t acc; simp
  | cons c w' ih =>
    intro t acc
    have hc : c ≠ ' ' := hw c (List.mem_cons_self c w')
    have hw' : ∀ x ∈ w', x ≠ ' ' := fun x hx => hw x (List.mem_cons_of_mem c hx)
    rw [List.cons_append, wordsAux_cons_ne c hc, ih hw' t (c :: acc)]
    simp [List.append_assoc]

lemma words_word_space (w t : List Char) (hne : w ≠ [])
    (hw : ∀ c ∈ w, c ≠ ' ') :
    words (w ++ ' ' :: t) = w :: words t := by
  unfold words
  rw [wordsAux_nospace w hw (' ' :: t) []]
  have hrev : ¬ (w.reverse ++ []).isEmpty := by
    simp [List.isEmpty_iff, hne]
  simp only [wordsAux, if_pos rfl, hrev, if_neg hrev]
  simp

lemma words_joinSpaced (ts : List (List Char))
    (h : ∀ w ∈ ts, w ≠ [] ∧ ∀ c ∈ w, c ≠ ' ') :
    words (joinSpaced ts) = ts := by
  induction ts with
  | nil => rfl
  | cons w ts' ih =>
    have hw := h w (List.mem_cons_self w ts')
    have hts' : ∀ x ∈ ts', x ≠ [] ∧ ∀ c ∈ x, c ≠ ' ' :=
      fun x hx => h x (List.mem_cons_of_mem w hx)
    simp only [joinSpaced, List.foldr_cons]
    rw [words_word_space w _ hw.1 hw.2]
    exact congrArg (w :: ·) (ih hts')

/-- The character list of the constructed command is the sixteen template
tokens, each followed by one blank. -/
lemma full_cmd_data (a b c d : String) :
    (full_cmd a b c d).data = joinSpaced (specTokens a b c d) := by
  simp [full_cmd, basecmd, specTokens, joinSpaced, String.data_append,
    List.append_assoc]

lemma argv_shape (argv : List String) (h : argv.length = 5) :
    ∃ p a b c d, argv = [p, a, b, c, d] := by
  match argv, h with
  | [p, a, b, c, d], _ => exact ⟨p, a, b, c, d, rfl⟩

/-- On a five-element argument vector the script takes the main branch:
it prints the constructed command, spawns `basecmd.split()`, and maps the
child's result to the interpreter's exit code. -/
lemma pymain_eq (p a b c d : String) (child : List String → ChildResult) :
    pymain [p, a, b, c, d] child =
      { printed := [full_cmd a b c d]
        spawned := some (pySplit basecmd)
        exitCode :=
          match child (pySplit basecmd) with
          | ChildResult.exited 0 => 0
          | ChildResult.exited (_ + 1) => 1
          | ChildResult.launchFailure => 1 } := rfl

lemma full_cmd_ne_usage (a b c d : String) : full_cmd a b c d ≠ usageMsg := by
  intro h
  have h1 : (full_cmd a b c d).data.head? = some '/' := by
    rw [full_cmd_data]; rfl
  rw [h] at h1
  exact absurd h1 (by decide)

/-- C1: the claim says the child process is invoked with the full
constructed argument list.  In the code the child argv is
`basecmd.split()`, i.e. only the bare binary path: at a concrete
four-argument invocation the spawned argv is `["/app/bin/linux/selscan"]`
and differs from the token list of the constructed command. -/
theorem spawn_omits_constructed_args :
    (pymain ["adhoc_runxp.py", "tped_pop1.txt", "out1", "tped_pop2.txt", "out2"]
        (fun _ => ChildResult.exited 0)).spawned = some ["/app/bin/linux/selscan"] ∧
    some ["/app/bin/linux/selscan"] ≠
      some (pySplit (full_cmd "tped_pop1.txt" "out1" "tped_pop2.txt" "out2")) := by
  refine ⟨rfl, ?_⟩
  decide

/-- C2: whenever the argument count differs from four (argv length, with
the program name, differs from five), the usage line is printed and no
subprocess is spawned. -/
theorem usage_on_bad_count (argv : List String)
    (child : List String → ChildResult) (h : argv.length ≠ 5) :
    (pymain argv child).printed = [usageMsg] ∧
    (pymain argv child).spawned = none := by
  simp [pymain, if_pos h]

theorem usage_on_bad_count_witness :
    (pymain ["adhoc_runxp.py"] (fun _ => ChildResult.exited 0)).printed = [usageMsg] ∧
    (pymain ["adhoc_runxp.py"] (fun _ => ChildResult.exited 0)).spawned = none :=
  usage_on_bad_count ["adhoc_runxp.py"] (fun _ => ChildResult.exited 0) (by decide)

/-- C3 counterexample: with zero positional arguments the usage line is
printed but the interpreter exits with code 0 (`sys.exit()` with no
argument signals success), refuting the claimed non-zero exit code. -/
theorem bad_count_exit_zero_cex :
    (pymain ["adhoc_runxp.py"] (fun _ => ChildResult.exited 0)).exitCode = 0 := rfl

/-- C3 amended: for every invocation whose positional argument count
differs from four, the process prints the usage message and terminates
with exit code 0, not a non-zero code. -/
theorem bad_count_exits_with_zero (argv : List String)
    (child : List String → ChildResult) (h : argv.length ≠ 5) :
    (pymain argv child).exitCode = 0 ∧
    (pymain argv child).printed = [usageMsg] := by
  simp [pymain, if_pos h]

theorem bad_count_exits_with_zero_witness :
    (pymain ["adhoc_runxp.py", "x"] (fun _ => ChildResult.exited 0)).exitCode = 0 ∧
    (pymain ["adhoc_runxp.py", "x"] (fun _ => ChildResult.exited 0)).printed = [usageMsg] :=
  bad_count_exits_with_zero ["adhoc_runxp.py", "x"]
    (fun _ => ChildResult.exited 0) (by decide)

/-- C4 counterexample: at the given arguments the printed command is not
byte-for-byte the claimed string: the source appends a final literal
ending in a blank, so the printed command carries one trailing blank. -/
theorem printed_cmd_exact_cex :
    (pymain ["adhoc_runxp.py", "tped_pop1.txt", "out1", "tped_pop2.txt", "out2"]
        (fun _ => ChildResult.exited 0)).printed ≠
      ["/app/bin/linux/selscan --xpehh --tped tped_pop1.txt --out out1 --tped-ref tped_pop2.txt --out2 out2 --maf 0.05 --gap-scale 20000 --threads 15"] := by
  decide

/-- C4 amended: at the given arguments the printed command is
byte-for-byte the claimed string followed by a single trailing blank. -/
theorem printed_cmd_exact :
    (pymain ["adhoc_runxp.py", "tped_pop1.txt", "out1", "tped_pop2.txt", "out2"]
        (fun _ => ChildResult.exited 0)).printed =
      ["/app/bin/linux/selscan --xpehh --tped tped_pop1.txt --out out1 --tped-ref tped_pop2.txt --out2 out2 --maf 0.05 --gap-scale 20000 --threads 15 "] := rfl

/-- C5 counterexample: "a b" is a non-empty argument, yet with it the
constructed command read as a token sequence does not match the template
with the arguments substituted: the embedded blank splits it in two. -/
theorem cmd_token_template_cex :
    "a b" ≠ "" ∧
    words (full_cmd "a b" "out1" "tped_pop2.txt" "out2").data ≠
      specTokens "a b" "out1" "tped_pop2.txt" "out2" := by
  refine ⟨by decide, by decide⟩

/-- C5 amended: for four non-empty arguments containing no blank
character, the constructed command read as an ordered token sequence is
exactly the fixed template with the four arguments substituted
positionally, the fixed parameter tokens included. -/
theorem cmd_token_template (a b c d : String)
    (ha : a.data ≠ [] ∧ ∀ ch ∈ a.data, ch ≠ ' ')
    (hb : b.data ≠ [] ∧ ∀ ch ∈ b.data, ch ≠ ' ')
    (hc : c.data ≠ [] ∧ ∀ ch ∈ c.data, ch ≠ ' ')
    (hd : d.data ≠ [] ∧ ∀ ch ∈ d.data, ch ≠ ' ') :
    words (full_cmd a b c d).data = specTokens a b c d := by
  rw [full_cmd_data]
  apply words_joinSpaced
  intro w hw
  simp only [specTokens, List.mem_cons, List.not_mem_nil, or_false] at hw
  rcases hw with rfl|rfl|rfl|rfl|rfl|rfl|rfl|rfl|rfl|rfl|rfl|rfl|rfl|rfl|rfl|rfl <;>
    first
      | exact ha
      | exact hb
      | exact hc
      | exact hd
      | exact ⟨by decide, by decide⟩

theorem cmd_token_template_witness :
    words (full_cmd "tped_pop1.txt" "out1" "tped_pop2.txt" "out2").data =
      specTokens "tped_pop1.txt" "out1" "tped_pop2.txt" "out2" :=
  cmd_token_template "tped_pop1.txt" "out1" "tped_pop2.txt" "out2"
    (by decide) (by decide) (by decide) (by decide)

/-- C6: on any four-argument invocation, a child that exits with status 0
gives the interpreter exit code 0, and a child that exits with status 3
gives a non-zero interpreter exit code (the uncaught
`CalledProcessError` terminates the interpreter with code 1). -/
theorem child_status_propagation (argv : List String) (h : argv.length = 5) :
    (pymain argv (fun _ => ChildResult.exited 0)).exitCode = 0 ∧
    (pymain argv (fun _ => ChildResult.exited 3)).exitCode ≠ 0 := by
  obtain ⟨p, a, b, c, d, rfl⟩ := argv_shape argv h
  exact ⟨rfl, by simp [pymain_eq]⟩

theorem child_status_propagation_witness :
    (pymain ["adhoc_runxp.py", "i1", "o1", "i2", "o2"]
        (fun _ => ChildResult.exited 0)).exitCode = 0 ∧
    (pymain ["adhoc_runxp.py", "i1", "o1", "i2", "o2"]
        (fun _ => ChildResult.exited 3)).exitCode ≠ 0 :=
  child_status_propagation ["adhoc_runxp.py", "i1", "o1", "i2", "o2"] (by decide)

/-- C7: on any four-argument invocation, if launching the external binary
fails (missing or not executable), the uncaught `OSError` surfaces as a
non-zero interpreter exit code; the single launch attempt is made and
nothing retries or recovers. -/
theorem launch_failure_surfaced (argv : List String) (h : argv.length = 5) :
    (pymain argv (fun _ => ChildResult.launchFailure)).exitCode ≠ 0 ∧
    (pymain argv (fun _ => ChildResult.launchFailure)).spawned =
      some (pySplit basecmd) := by
  obtain ⟨p, a, b, c, d, rfl⟩ := argv_shape argv h
  exact ⟨by simp [pymain_eq], rfl⟩

theorem launch_failure_surfaced_witness :
    (pymain ["adhoc_runxp.py", "a", "b", "c", "d"]
        (fun _ => ChildResult.launchFailure)).exitCode ≠ 0 ∧
    (pymain ["adhoc_runxp.py", "a", "b", "c", "d"]
        (fun _ => ChildResult.launchFailure)).spawned = some (pySplit basecmd) :=
  launch_failure_surfaced ["adhoc_runxp.py", "a", "b", "c", "d"] (by decide)

/-- C8: command construction is deterministic: identical argument tuples
give byte-identical constructed command strings and identical printed
command lines, whatever the child behaviour of either run. -/
theorem cmd_construction_deterministic
    (p p' a a' b b' c c' d d' : String)
    (child child' : List String → ChildResult)
    (h1 : a = a') (h2 : b = b') (h3 : c = c') (h4 : d = d') :
    (full_cmd a b c d).data = (full_cmd a' b' c' d').data ∧
    (pymain [p, a, b, c, d] child).printed =
      (pymain [p', a', b', c', d'] child').printed := by
  subst h1 h2 h3 h4
  exact ⟨rfl, by rw [pymain_eq, pymain_eq]⟩

theorem cmd_construction_deterministic_witness :
    (full_cmd "i1" "o1" "i2" "o2").data = (full_cmd "i1" "o1" "i2" "o2").data ∧
    (pymain ["x", "i1", "o1", "i2", "o2"] (fun _ => ChildResult.exited 0)).printed =
      (pymain ["y", "i1", "o1", "i2", "o2"] (fun _ => ChildResult.exited 3)).printed :=
  cmd_construction_deterministic "x" "y" "i1" "i1" "o1" "o1" "i2" "i2" "o2" "o2"
    (fun _ => ChildResult.exited 0) (fun _ => ChildResult.exited 3) rfl rfl rfl rfl

/-- C9: validation is count-only: with exactly four positional arguments,
whatever their content (empty strings included), the usage line is not
printed, the arguments are substituted into the printed command, and the
subprocess step is reached. -/
theorem count_only_validation (p a b c d : String)
    (child : List String → ChildResult) :
    (pymain [p, a, b, c, d] child).printed = [full_cmd a b c d] ∧
    (pymain [p, a, b, c, d] child).printed ≠ [usageMsg] ∧
    (pymain [p, a, b, c, d] child).spawned = some (pySplit basecmd) := by
  refine ⟨by rw [pymain_eq], ?_, by rw [pymain_eq]⟩
  rw [pymain_eq]
  simp [full_cmd_ne_usage]

/-- C10: whenever the argument-count check passes (argv has length five),
the destructuring of `sys.argv[1:]` into the four variables succeeds;
the unpacking-failure branch is unreachable. -/
theorem unpack_always_succeeds (argv : List String) (h : argv.length = 5) :
    (unpack4 argv.tail).isSome = true := by
  obtain ⟨p, a, b, c, d, rfl⟩ := argv_shape argv h
  rfl

theorem unpack_always_succeeds_witness :
    (unpack4 (["adhoc_runxp.py", "i1", "o1", "i2", "o2"] : List String).tail).isSome = true :=
  unpack_always_succeeds ["adhoc_runxp.py", "i1", "o1", "i2", "o2"] (by decide)

end AdhocRunxp
